import Mathlib

/-!
Verification of the youtube-unofficial client library (src/youtube_unofficial):
a shallow embedding in Lean 4 of the nested-JSON navigation utilities
(util.py: path, path_default) and of the public account operations
(__init__.py: pagination via get_playlist_info / get_history_info and the
mutation operations), together with theorems settling the specified
behavioural claims.

Python values flowing through the library are loosely-typed JSON-derived
structures; they are modelled by the inductive type JVal.  Python exceptions
are modelled by PyErr, and every embedded operation returns an Except value
together with the trace of network requests it issued (List Req), so that
claims about "no further continuation request" or "zero deletion requests"
are statements about the trace.
-/

/-- Loosely-typed JSON-like values: the duck-typed dict/list/scalar
structures the Python code navigates. -/
inductive JVal where
  | null : JVal
  | bool : Bool → JVal
  | num : Int → JVal
  | str : String → JVal
  | arr : List JVal → JVal
  | obj : List (String × JVal) → JVal

/-- The Python exception classes the embedded code can raise.
KeyError and IndexError are Python's LookupError subclasses;
AuthenticationError and UnexpectedError come from the library's own
exceptions module. -/
inductive PyErr where
  | keyError : String → PyErr
  | indexError : PyErr
  | typeError : String → PyErr
  | valueError : String → PyErr
  | authenticationError : String → PyErr
  | unexpectedError : String → PyErr
deriving DecidableEq

/-- Network requests an operation can issue, in order.  pageFetch is a
_download_page_soup page GET; browseAjax is the playlist continuation GET to
BROWSE_AJAX_URL; browseAjaxPost is the history continuation POST (which also
carries a session token); serviceAjax is a mutation POST to SERVICE_AJAX_URL
with its endpoint name and sej payload; innertubePost is the youtubei POST
made by pause_resume_search_history. -/
inductive Req where
  | pageFetch : String → Req
  | browseAjax : JVal → JVal → Req
  | browseAjaxPost : JVal → JVal → JVal → Req
  | serviceAjax : String → JVal → Req
  | innertubePost : String → Req

/-- Python truthiness for JVal (bool(x)). -/
def truthy : JVal → Bool
  | .null => false
  | .bool b => b
  | .num n => n != 0
  | .str s => s != ""
  | .arr xs => !xs.isEmpty
  | .obj kvs => !kvs.isEmpty

/-- Python d[k] subscript with a string key: dict lookup (KeyError when the
key is missing); subscripting a string or scalar with a string key raises
TypeError. -/
def jget (v : JVal) (k : String) : Except PyErr JVal :=
  match v with
  | .obj kvs =>
    match kvs.lookup k with
    | some w => .ok w
    | none => .error (.keyError k)
  | .str _ => .error (.typeError "string indices must be integers")
  | _ => .error (.typeError "object is not subscriptable")

/-- Python list indexing xs[i] with negative-index support: a negative i
counts from the end; an index out of range raises IndexError. -/
def listIndex (xs : List JVal) (i : Int) : Except PyErr JVal :=
  let j := if i < 0 then i + xs.length else i
  if 0 ≤ j then
    match xs.get? j.toNat with
    | some v => .ok v
    | none => .error .indexError
  else .error .indexError

/-- Python v[i] subscript with an integer: list indexing for sequences; a
dict would look the integer up as a key (our fixtures never store integer
keys, so this is a KeyError); scalars raise TypeError. -/
def jidx (v : JVal) (i : Int) : Except PyErr JVal :=
  match v with
  | .arr xs => listIndex xs i
  | .obj _ => .error (.keyError (toString i))
  | _ => .error (.typeError "object is not subscriptable")

/-- Python 'k in v' membership test as used on dict items. -/
def hasKey (v : JVal) (k : String) : Bool :=
  match v with
  | .obj kvs => (kvs.lookup k).isSome
  | _ => false

/-- Python iteration over a value (yield from v / for x in v): lists yield
elements, dicts yield their keys, strings yield 1-character strings, other
values raise TypeError. -/
def pyIter (v : JVal) : Except PyErr (List JVal) :=
  match v with
  | .arr xs => .ok xs
  | .obj kvs => .ok (kvs.map (fun kv => .str kv.1))
  | .str s => .ok (s.toList.map (fun c => .str (String.singleton c)))
  | _ => .error (.typeError "object is not iterable")

/-- Python v == s comparison of a value against a string literal: only a
string with the same contents compares equal. -/
def isStr (v : JVal) (s : String) : Bool :=
  match v with
  | .str t => t == s
  | _ => false

/-- All characters are ASCII digits (helper for pyInt?). -/
def digitsVal : List Char → Option Nat
  | [] => none
  | cs =>
    if cs.all (fun c => c.isDigit) then
      some (cs.foldl (fun acc c => acc * 10 + (c.toNat - 48)) 0)
    else none

/-- Python int(s) on a string: strips surrounding whitespace, then an
optional sign followed by digits; anything else raises
ValueError("invalid literal for int() ...").  (Underscore digit grouping and
non-ASCII digits are not modelled; the dotted-path segments fed to this
function are plain ASCII.)  none models the ValueError. -/
def pyInt? (s : String) : Option Int :=
  match (((s.toList.dropWhile Char.isWhitespace).reverse.dropWhile
      Char.isWhitespace).reverse) with
  | '+' :: rest => (digitsVal rest).map Int.ofNat
  | '-' :: rest => (digitsVal rest).map (fun n => -(n : Int))
  | l => (digitsVal l).map Int.ofNat

/-- Python s.split(sep) for a single-character separator, over the character
list of s: every occurrence of sep starts a new (possibly empty) field. -/
def splitOnChar (sep : Char) : List Char → List String
  | [] => [""]
  | c :: rest =>
    let r := splitOnChar sep rest
    if c == sep then "" :: r
    else
      match r with
      | h :: t => (String.singleton c ++ h) :: t
      | [] => [String.singleton c]

/-- One step of util.path for a single segment: when the current node is a
list, Python runs int(prop); a non-numeric segment makes int raise
ValueError, which propagates uncaught — the source's "except TypeError:
raise TypeError('Property for a list must be an integer')" is dead code,
because int() on a str argument never raises TypeError.  When the node is
not a list, Python evaluates obj[prop]. -/
def pathSeg (obj : JVal) (prop : String) : Except PyErr JVal :=
  match obj with
  | .arr xs =>
    match pyInt? prop with
    | some i => listIndex xs i
    | none =>
      .error (.valueError
        ("invalid literal for int() with base 10: '" ++ prop ++ "'"))
  | v => jget v prop

/-- util.path(s, obj): traverse obj along the dot-separated segments of s. -/
def path (s : String) (obj : JVal) : Except PyErr JVal :=
  (splitOnChar '.' s.toList).foldlM pathSeg obj

/-- util.path_default(s, obj, default): like path, but an IndexError or
KeyError is caught and replaced by the caller-supplied default; any other
exception (TypeError, ValueError) propagates. -/
def path_default (s : String) (obj : JVal) (dflt : JVal) : Except PyErr JVal :=
  match path s obj with
  | .ok v => .ok v
  | .error (.keyError _) => .ok dflt
  | .error .indexError => .ok dflt
  | .error e => .error e

/- ------------------------------------------------------------------
Pagination: get_playlist_info and get_history_info.

Each embedded operation returns the Except outcome paired with the list of
network requests it issued, in order.  The page fetch that obtains the
initial HTML is the first request; the continuation requests follow. The
continuation responses the server would return are supplied as a transcript
(List JVal) consumed in order; exhausting the transcript while the code
still wants a response is a fixture artefact reported as an unexpectedError.
------------------------------------------------------------------- -/

/-- URL constants from the library's constants module (not under src/); only
their identity in request traces matters. -/
def HISTORY_URL : String := "https://www.youtube.com/feed/history"

def HOMEPAGE_URL : String := "https://www.youtube.com"

def WATCH_LATER_URL : String := "https://www.youtube.com/playlist?list=WL"

def SEARCH_HISTORY_URL : String := "https://myactivity.google.com/activitycontrols/youtube"

/-- The AuthenticationError message raised by every operation requiring
login. -/
def authRequiredMsg : String := "This method requires a call to login() first"

def playlistUrl (playlistId : String) : String :=
  "https://www.youtube.com/playlist?list=" ++ playlistId

/-- Result of an embedded operation: outcome plus issued request trace. -/
abbrev OpResult (α : Type) := Except PyErr α × List Req

/-- Prepend a request to the trace of a result (helper for the recursive
continuation loops). -/
def consTrace (r : Req) (p : OpResult (List JVal)) : OpResult (List JVal) :=
  (p.1, r :: p.2)

/-- get_playlist_info's fixed navigation from the initial data to the
playlistVideoListRenderer (lines 254-258). -/
def plNavigate (d : JVal) : Except PyErr JVal := do
  let a ← jget d "contents"
  let a ← jget a "twoColumnBrowseResultsRenderer"
  let a ← jget a "tabs"
  let a ← jidx a 0
  let a ← jget a "tabRenderer"
  let a ← jget a "content"
  let a ← jget a "sectionListRenderer"
  let a ← jget a "contents"
  let a ← jidx a 0
  let a ← jget a "itemSectionRenderer"
  let a ← jget a "contents"
  let a ← jidx a 0
  jget a "playlistVideoListRenderer"

/-- get_history_info's fixed navigation from the initial data to the
sectionListRenderer (lines 380-382). -/
def histNavigate (d : JVal) : Except PyErr JVal := do
  let a ← jget d "contents"
  let a ← jget a "twoColumnBrowseResultsRenderer"
  let a ← jget a "tabs"
  let a ← jidx a 0
  let a ← jget a "tabRenderer"
  let a ← jget a "content"
  jget a "sectionListRenderer"

/-- Extraction of the renderer's first continuation descriptor:
renderer["continuations"][0]["nextContinuationData"]. -/
def nextContData (renderer : JVal) : Except PyErr JVal := do
  let c ← jget renderer "continuations"
  let c ← jidx c 0
  jget c "nextContinuationData"

/-- The continuation loop of get_playlist_info (lines 274-298): issue a
browse-ajax request for the current cursor, yield the continuation batch,
stop when the response carries no "continuations" key (only that KeyError is
caught), otherwise read the next cursor (itct first, then continuation, as
in lines 296-298) and repeat. -/
def playlistContLoop : List JVal → List JVal → JVal → JVal →
    OpResult (List JVal)
  | [], _acc, cont, itct =>
    (.error (.unexpectedError "fixture transcript exhausted"),
     [Req.browseAjax cont itct])
  | resp :: rest, acc, cont, itct =>
    match (do
      let r ← jidx resp 1
      let response ← jget r "response"
      let cc ← jget response "continuationContents"
      let plc ← jget cc "playlistVideoListContinuation"
      let c ← jget plc "contents"
      let items ← pyIter c
      pure (plc, items) : Except PyErr (JVal × List JVal)) with
    | .error e => (.error e, [Req.browseAjax cont itct])
    | .ok (plc, items) =>
      match jget plc "continuations" with
      | .error (.keyError _) => (.ok (acc ++ items), [Req.browseAjax cont itct])
      | .error e => (.error e, [Req.browseAjax cont itct])
      | .ok conts =>
        match (do
          let nc ← jidx conts 0
          let nc ← jget nc "nextContinuationData"
          let itct2 ← jget nc "clickTrackingParams"
          let cont2 ← jget nc "continuation"
          pure (cont2, itct2) : Except PyErr (JVal × JVal)) with
        | .error e => (.error e, [Req.browseAjax cont itct])
        | .ok (cont2, itct2) =>
          consTrace (Req.browseAjax cont itct)
            (playlistContLoop rest (acc ++ items) cont2 itct2)

/-- YouTube.get_playlist_info (lines 242-298), embedded.  The generator
body: authentication check, page fetch, navigation to the video list
renderer, first batch (a missing "contents" key is caught and yields
nothing), optional first cursor (KeyError caught; both components must be
truthy), then the continuation loop. -/
def get_playlist_info (loggedIn : Bool) (playlistId : String) (initData : JVal)
    (responses : List JVal) : OpResult (List JVal) :=
  if !loggedIn then (.error (.authenticationError authRequiredMsg), [])
  else
    match plNavigate initData with
    | .error e => (.error e, [Req.pageFetch (playlistUrl playlistId)])
    | .ok vlr =>
      match (match jget vlr "contents" with
             | .error (.keyError _) => .ok []
             | .error e => .error e
             | .ok c => pyIter c : Except PyErr (List JVal)) with
      | .error e => (.error e, [Req.pageFetch (playlistUrl playlistId)])
      | .ok firstBatch =>
        match (do
          let nc ← nextContData vlr
          let cont ← jget nc "continuation"
          let itct ← jget nc "clickTrackingParams"
          pure (cont, itct) : Except PyErr (JVal × JVal)) with
        | .error (.keyError _) =>
          (.ok firstBatch, [Req.pageFetch (playlistUrl playlistId)])
        | .error e => (.error e, [Req.pageFetch (playlistUrl playlistId)])
        | .ok (cont, itct) =>
          if truthy cont && truthy itct then
            ((playlistContLoop responses firstBatch cont itct).1,
             [Req.pageFetch (playlistUrl playlistId)] ++
               (playlistContLoop responses firstBatch cont itct).2)
          else (.ok firstBatch, [Req.pageFetch (playlistUrl playlistId)])

/-- The first-batch extraction of get_history_info (lines 383-384): iterate
the sectionListRenderer's "contents", flattening each section's
itemSectionRenderer.contents.  No KeyError is caught here. -/
def histSections (slr : JVal) : Except PyErr (List JVal) := do
  let cs ← jget slr "contents"
  let sections ← pyIter cs
  sections.foldlM (fun acc s => do
    let isr ← jget s "itemSectionRenderer"
    let c ← jget isr "contents"
    let items ← pyIter c
    pure (acc ++ items)) []

/-- The continuation loop of get_history_info (lines 401-427): POST with the
cursor pair and the current session token, yield the section-list
continuation batch, stop when "continuations" is absent; otherwise refresh
the token from resp[1]["xsrf_token"] and read the next cursor. -/
def historyContLoop : List JVal → List JVal → JVal → JVal → JVal →
    OpResult (List JVal)
  | [], _acc, cont, itct, xsrf =>
    (.error (.unexpectedError "fixture transcript exhausted"),
     [Req.browseAjaxPost cont itct xsrf])
  | resp :: rest, acc, cont, itct, xsrf =>
    match (do
      let r ← jidx resp 1
      let response ← jget r "response"
      let cc ← jget response "continuationContents"
      let slr ← jget cc "sectionListContinuation"
      let items ← histSections slr
      pure (r, slr, items) : Except PyErr (JVal × JVal × List JVal)) with
    | .error e => (.error e, [Req.browseAjaxPost cont itct xsrf])
    | .ok (r, slr, items) =>
      match jget slr "continuations" with
      | .error (.keyError _) =>
        (.ok (acc ++ items), [Req.browseAjaxPost cont itct xsrf])
      | .error e => (.error e, [Req.browseAjaxPost cont itct xsrf])
      | .ok conts =>
        match (do
          let xsrf2 ← jget r "xsrf_token"
          let nc ← jidx conts 0
          let nc ← jget nc "nextContinuationData"
          let itct2 ← jget nc "clickTrackingParams"
          let cont2 ← jget nc "continuation"
          pure (cont2, itct2, xsrf2) : Except PyErr (JVal × JVal × JVal)) with
        | .error e => (.error e, [Req.browseAjaxPost cont itct xsrf])
        | .ok (cont2, itct2, xsrf2) =>
          consTrace (Req.browseAjaxPost cont itct xsrf)
            (historyContLoop rest (acc ++ items) cont2 itct2 xsrf2)

/-- YouTube.get_history_info (lines 369-427), embedded.  The generator body:
authentication check, page fetch, navigation to the sectionListRenderer,
first batch (errors NOT caught), first cursor (only KeyError caught, lines
385-389), then the cursor components and the page token (reads that
propagate errors), then the continuation loop. -/
def get_history_info (loggedIn : Bool) (initData ytcfg : JVal)
    (responses : List JVal) : OpResult (List JVal) :=
  if !loggedIn then (.error (.authenticationError authRequiredMsg), [])
  else
    match (do
      let slr ← histNavigate initData
      let items ← histSections slr
      pure (slr, items) : Except PyErr (JVal × List JVal)) with
    | .error e => (.error e, [Req.pageFetch HISTORY_URL])
    | .ok (slr, firstBatch) =>
      match nextContData slr with
      | .error (.keyError _) => (.ok firstBatch, [Req.pageFetch HISTORY_URL])
      | .error e => (.error e, [Req.pageFetch HISTORY_URL])
      | .ok nc =>
        match (do
          let cont ← jget nc "continuation"
          let itct ← jget nc "clickTrackingParams"
          let xsrf ← jget ytcfg "XSRF_TOKEN"
          pure (cont, itct, xsrf) : Except PyErr (JVal × JVal × JVal)) with
        | .error e => (.error e, [Req.pageFetch HISTORY_URL])
        | .ok (cont, itct, xsrf) =>
          ((historyContLoop responses firstBatch cont itct xsrf).1,
           [Req.pageFetch HISTORY_URL] ++
             (historyContLoop responses firstBatch cont itct xsrf).2)

/- Fixture builders for paginated collections. -/

/-- Wrap a value under a single key. -/
def wrapKey (k : String) (v : JVal) : JVal := .obj [(k, v)]

/-- A continuation entry holding a cursor pair. -/
def mkNextCont (c i : String) : JVal :=
  wrapKey "nextContinuationData"
    (.obj [("continuation", .str c), ("clickTrackingParams", .str i)])

/-- A playlistVideoListRenderer / playlistVideoListContinuation with the
given items and optional outgoing cursor. -/
def mkPlRenderer (items : List JVal) : Option (String × String) → JVal
  | some (c, i) =>
    .obj [("contents", .arr items), ("continuations", .arr [mkNextCont c i])]
  | none => .obj [("contents", .arr items)]

/-- Wrap a sectionListRenderer in the initial-data nesting both navigations
traverse. -/
def mkBrowseInitData (slr : JVal) : JVal :=
  wrapKey "contents" (wrapKey "twoColumnBrowseResultsRenderer" (wrapKey "tabs"
    (.arr [wrapKey "tabRenderer" (wrapKey "content"
      (wrapKey "sectionListRenderer" slr))])))

/-- Initial data embedding a playlistVideoListRenderer at the navigated
position. -/
def mkPlInitData (vlr : JVal) : JVal :=
  mkBrowseInitData (wrapKey "contents"
    (.arr [wrapKey "itemSectionRenderer" (wrapKey "contents"
      (.arr [wrapKey "playlistVideoListRenderer" vlr]))]))

/-- A browse-ajax continuation response for a playlist page. -/
def mkPlResponse (items : List JVal) (cur : Option (String × String)) : JVal :=
  .arr [.null, wrapKey "response" (wrapKey "continuationContents"
    (wrapKey "playlistVideoListContinuation" (mkPlRenderer items cur)))]

/-- A history section holding the given items. -/
def mkHistSection (items : List JVal) : JVal :=
  wrapKey "itemSectionRenderer" (wrapKey "contents" (.arr items))

/-- A sectionListRenderer / sectionListContinuation with one section of the
given items and an optional outgoing cursor. -/
def mkHistSLR (items : List JVal) : Option (String × String) → JVal
  | some (c, i) =>
    .obj [("contents", .arr [mkHistSection items]),
          ("continuations", .arr [mkNextCont c i])]
  | none => .obj [("contents", .arr [mkHistSection items])]

/-- A browse-ajax continuation response for a history page (carries the
refreshed xsrf_token next to the response). -/
def mkHistResponse (items : List JVal) (cur : Option (String × String))
    (xsrf : String) : JVal :=
  .arr [.null, .obj [("response", wrapKey "continuationContents"
    (wrapKey "sectionListContinuation" (mkHistSLR items cur))),
    ("xsrf_token", .str xsrf)]]

/-- Continuation-response transcript for a playlist fixture: each element of
the chain is a page carrying its outgoing cursor; the final page carries
none. -/
def plRespList : List (List JVal × String × String) → List JVal → List JVal
  | [], last => [mkPlResponse last none]
  | (b, c, i) :: rest, last => mkPlResponse b (some (c, i)) :: plRespList rest last

/-- Continuation-response transcript for a history fixture. -/
def histRespList : List (List JVal × String × String) → List JVal → String →
    List JVal
  | [], last, xs => [mkHistResponse last none xs]
  | (b, c, i) :: rest, last, xs =>
    mkHistResponse b (some (c, i)) xs :: histRespList rest last xs

/-- Concatenation of the batches of a chain. -/
def chainItems : List (List JVal × String × String) → List JVal
  | [] => []
  | (b, _, _) :: rest => b ++ chainItems rest

/-- The browse requests issued for a playlist chain: one per carried cursor. -/
def plChainTrace : List (List JVal × String × String) → List Req
  | [] => []
  | (_, c, i) :: rest => Req.browseAjax (.str c) (.str i) :: plChainTrace rest

/-- The browse requests issued for a history chain with a fixed token. -/
def histChainTrace (xs : String) : List (List JVal × String × String) → List Req
  | [] => []
  | (_, c, i) :: rest =>
    Req.browseAjaxPost (.str c) (.str i) (.str xs) :: histChainTrace xs rest

/- ------------------------------------------------------------------
Mutation operations.
------------------------------------------------------------------- -/

/-- Whether a request is a SERVICE_AJAX mutation (deletion / feedback)
request. -/
def isServiceAjax : Req → Bool
  | .serviceAjax _ _ => true
  | _ => false

/-- The sej payload remove_set_video_id_from_playlist serialises (lines
102-127). -/
def playlistEditSej (playlistId : String) (setVideoId : JVal) : JVal :=
  .obj [("clickTrackingParams", .str ""),
        ("commandMetadata", wrapKey "webCommandMetadata"
          (.obj [("url", .str "/service_ajax"), ("sendPost", .bool true)])),
        ("playlistEditEndpoint", .obj
          [("playlistId", .str playlistId),
           ("actions", .arr [.obj [("setVideoId", setVideoId),
                                   ("action", .str "ACTION_REMOVE_VIDEO")]]),
           ("params", .str "CAE%3D"),
           ("clientActions", .arr [wrapKey "playlistRemoveVideosAction"
             (wrapKey "setVideoIds" (.arr [setVideoId]))])])]

/-- YouTube.remove_set_video_id_from_playlist (lines 83-143), embedded.
When headers, csn or xsrf_token are missing or falsy the Watch Later page is
fetched first (its extracted ytcfg is the ytcfg argument).  Python's
"csn or ytcfg['EVENT_ID']" short-circuit is modelled by the truthiness
tests.  The response's "code" field is compared against "SUCCESS"; any other
value raises UnexpectedError. -/
def remove_set_video_id_from_playlist (loggedIn : Bool) (playlistId : String)
    (setVideoId : JVal) (csn xsrf : Option JVal) (headersProvided : Bool)
    (ytcfg : JVal) (response : JVal) : OpResult Unit :=
  if !loggedIn then (.error (.authenticationError authRequiredMsg), [])
  else
    match (do
      let csnVal ← (if truthy (csn.getD .null) then pure (csn.getD .null)
                    else jget ytcfg "EVENT_ID")
      let xsrfVal ← (if truthy (xsrf.getD .null) then pure (xsrf.getD .null)
                     else jget ytcfg "XSRF_TOKEN")
      pure (csnVal, xsrfVal) : Except PyErr (JVal × JVal)) with
    | .error e =>
      (.error e,
       if !headersProvided || !(truthy (csn.getD .null)) ||
          !(truthy (xsrf.getD .null)) then [Req.pageFetch WATCH_LATER_URL]
       else [])
    | .ok _ =>
      match jget response "code" with
      | .error e =>
        (.error e,
         (if !headersProvided || !(truthy (csn.getD .null)) ||
             !(truthy (xsrf.getD .null)) then [Req.pageFetch WATCH_LATER_URL]
          else []) ++ [Req.serviceAjax "playlistEditEndpoint"
            (playlistEditSej playlistId setVideoId)])
      | .ok c =>
        if isStr c "SUCCESS" then
          (.ok (),
           (if !headersProvided || !(truthy (csn.getD .null)) ||
               !(truthy (xsrf.getD .null)) then [Req.pageFetch WATCH_LATER_URL]
            else []) ++ [Req.serviceAjax "playlistEditEndpoint"
              (playlistEditSej playlistId setVideoId)])
        else
          (.error (.unexpectedError
            "Failed to delete video from Watch Later playlist"),
           (if !headersProvided || !(truthy (csn.getD .null)) ||
               !(truthy (xsrf.getD .null)) then [Req.pageFetch WATCH_LATER_URL]
            else []) ++ [Req.serviceAjax "playlistEditEndpoint"
              (playlistEditSej playlistId setVideoId)])

/-- clear_watch_history's fixed navigation to the confirm-button service
endpoint descriptor (lines 162-167). -/
def clearHistorySej (initData : JVal) : Except PyErr JVal := do
  let a ← jget initData "contents"
  let a ← jget a "twoColumnBrowseResultsRenderer"
  let a ← jget a "secondaryContents"
  let a ← jget a "browseFeedActionsRenderer"
  let a ← jget a "contents"
  let a ← jidx a 2
  let a ← jget a "buttonRenderer"
  let a ← jget a "navigationEndpoint"
  let a ← jget a "confirmDialogEndpoint"
  let a ← jget a "content"
  let a ← jget a "confirmDialogRenderer"
  let a ← jget a "confirmButton"
  let a ← jget a "buttonRenderer"
  jget a "serviceEndpoint"

/-- The form-data construction of clear_watch_history (lines 158-172): the
sej descriptor, then the csn and session_token reads, all inside the same
"try ... except KeyError". -/
def clearHistoryFormData (initData ytcfg : JVal) : Except PyErr JVal := do
  let sej ← clearHistorySej initData
  let _ ← jget ytcfg "EVENT_ID"
  let _ ← jget ytcfg "XSRF_TOKEN"
  pure sej

/-- YouTube.clear_watch_history (lines 145-184), embedded.  A KeyError
while building the form data (absent confirm button) is treated as "history
already empty" and returns silently; IndexError from the list index 2 is
NOT caught and propagates.  The mutation response is downloaded but its
status code is never inspected. -/
def clear_watch_history (loggedIn : Bool) (initData ytcfg : JVal)
    (_response : JVal) : OpResult Unit :=
  if !loggedIn then (.error (.authenticationError authRequiredMsg), [])
  else
    match clearHistoryFormData initData ytcfg with
    | .error (.keyError _) => (.ok (), [Req.pageFetch HISTORY_URL])
    | .error e => (.error e, [Req.pageFetch HISTORY_URL])
    | .ok sej =>
      (.ok (), [Req.pageFetch HISTORY_URL,
                Req.serviceAjax "feedbackEndpoint" sej])

/-- A ytcfg fixture holding the two tokens the mutation operations read. -/
def ytcfgFixture : JVal :=
  .obj [("EVENT_ID", .str "csn"), ("XSRF_TOKEN", .str "tok")]

/-- An initial-data fixture in which the clear-history confirm button is
present, with service endpoint descriptor (.str "SEJ"). -/
def clearHistoryButtonFixture : JVal :=
  wrapKey "contents" (wrapKey "twoColumnBrowseResultsRenderer"
    (wrapKey "secondaryContents" (wrapKey "browseFeedActionsRenderer"
      (wrapKey "contents" (.arr [.null, .null,
        wrapKey "buttonRenderer" (wrapKey "navigationEndpoint"
          (wrapKey "confirmDialogEndpoint" (wrapKey "content"
            (wrapKey "confirmDialogRenderer" (wrapKey "confirmButton"
              (wrapKey "buttonRenderer"
                (wrapKey "serviceEndpoint" (.str "SEJ"))))))))])))))

/- ------------------------------------------------------------------
Favorites playlist resolution (get_favorites_playlist_id) and the session
state carrying its cache.
------------------------------------------------------------------- -/

/-- The session state the operations touch: the login flag and the cached
Favorites playlist id (None until resolved). -/
structure Session where
  loggedIn : Bool
  favoritesPlaylistId : Option JVal

/-- item["guideEntryRenderer"]["icon"]["iconType"]. -/
def guideIconType (item : JVal) : Except PyErr JVal := do
  let a ← jget item "guideEntryRenderer"
  let a ← jget a "icon"
  jget a "iconType"

/-- item["guideEntryRenderer"]["entryData"]["guideEntryData"]["guideEntryId"]. -/
def guideEntryId (item : JVal) : Except PyErr JVal := do
  let a ← jget item "guideEntryRenderer"
  let a ← jget a "entryData"
  let a ← jget a "guideEntryData"
  jget a "guideEntryId"

/-- The inner loop of check_section_items (lines 204-208): scan
expandableItems; each entry's iconType is read unconditionally (missing
keys raise KeyError). -/
def scanExpandable : List JVal → Except PyErr (Option JVal)
  | [] => .ok none
  | e :: rest =>
    match guideIconType e with
    | .error err => .error err
    | .ok icon =>
      if isStr icon "LIKES_PLAYLIST" then (guideEntryId e).map some
      else scanExpandable rest

/-- check_section_items (lines 194-209): for each item, a direct
guideEntryRenderer is tested for the LIKES_PLAYLIST icon; a
guideCollapsibleEntryRenderer has its expandableItems scanned; other items
are skipped. -/
def check_section_items : List JVal → Except PyErr (Option JVal)
  | [] => .ok none
  | item :: rest =>
    if hasKey item "guideEntryRenderer" then
      match guideIconType item with
      | .error e => .error e
      | .ok icon =>
        if isStr icon "LIKES_PLAYLIST" then (guideEntryId item).map some
        else check_section_items rest
    else if hasKey item "guideCollapsibleEntryRenderer" then
      match (jget item "guideCollapsibleEntryRenderer" >>= fun r =>
             jget r "expandableItems" >>= pyIter) with
      | .error e => .error e
      | .ok eitems =>
        match scanExpandable eitems with
        | .error e => .error e
        | .ok (some v) => .ok (some v)
        | .ok none => check_section_items rest
    else check_section_items rest

/-- The guide navigation of get_favorites_playlist_id (lines 213-215):
gd["items"][0]["guideSectionRenderer"]["items"][4]
["guideCollapsibleSectionEntryRenderer"]["sectionItems"]. -/
def guideSectionItems (gd : JVal) : Except PyErr JVal := do
  let a ← jget gd "items"
  let a ← jidx a 0
  let a ← jget a "guideSectionRenderer"
  let a ← jget a "items"
  let a ← jidx a 4
  let a ← jget a "guideCollapsibleSectionEntryRenderer"
  jget a "sectionItems"

/-- YouTube.get_favorites_playlist_id (lines 186-232), embedded.  Cached-id
truthiness (a cached empty string is falsy and ignored, like None), guide
fetch, primary scan, fallback scan of section_items[-1]'s expandableItems,
ValueError when still not found; a truthy find is cached in the session. -/
def get_favorites_playlist_id (sess : Session) (guideData : JVal) :
    Except PyErr JVal × Session × List Req :=
  if !sess.loggedIn then
    (.error (.authenticationError authRequiredMsg), sess, [])
  else if truthy ((sess.favoritesPlaylistId).getD .null) then
    (.ok ((sess.favoritesPlaylistId).getD .null), sess, [])
  else
    let tr0 := [Req.pageFetch HOMEPAGE_URL]
    match (do
      let si ← guideSectionItems guideData
      let siList ← pyIter si
      pure (si, siList) : Except PyErr (JVal × List JVal)) with
    | .error e => (.error e, sess, tr0)
    | .ok (si, siList) =>
      match check_section_items siList with
      | .error e => (.error e, sess, tr0)
      | .ok found =>
        if truthy (found.getD .null) then
          (.ok (found.getD .null),
           { sess with favoritesPlaylistId := found }, tr0)
        else
          match (do
            let lastItem ← jidx si (-1)
            let r ← jget lastItem "guideCollapsibleEntryRenderer"
            let ei ← jget r "expandableItems"
            pyIter ei : Except PyErr (List JVal)) with
          | .error e => (.error e, sess, tr0)
          | .ok eiList =>
            match check_section_items eiList with
            | .error e => (.error e, sess, tr0)
            | .ok found2 =>
              if !truthy (found2.getD .null) then
                (.error (.valueError
                  "Could not determine favourites playlist ID"), sess, tr0)
              else
                (.ok (found2.getD .null),
                 { sess with favoritesPlaylistId := found2 }, tr0)

/-- A guide entry with the given icon type and entry id. -/
def favEntry (icon eid : String) : JVal :=
  wrapKey "guideEntryRenderer"
    (.obj [("icon", wrapKey "iconType" (.str icon)),
           ("entryData", wrapKey "guideEntryData"
             (wrapKey "guideEntryId" (.str eid)))])

/-- A collapsible guide entry holding the given expandable items. -/
def collapsibleItem (eitems : List JVal) : JVal :=
  wrapKey "guideCollapsibleEntryRenderer"
    (wrapKey "expandableItems" (.arr eitems))

/-- Guide data whose navigated section holds the given section items. -/
def mkGuideData (sectionItems : List JVal) : JVal :=
  wrapKey "items" (.arr [wrapKey "guideSectionRenderer" (wrapKey "items"
    (.arr [.null, .null, .null, .null,
      wrapKey "guideCollapsibleSectionEntryRenderer"
        (wrapKey "sectionItems" (.arr sectionItems))]))])

/-- A guide fixture in which no entry carries the LIKES_PLAYLIST icon
marker. -/
def noFavGuideFixture : JVal :=
  mkGuideData [collapsibleItem [favEntry "WATCH_LATER" "WLID"]]

/-- A guide fixture whose section items directly contain the Favorites
marker with id FAVID. -/
def favGuideFixture : JVal :=
  mkGuideData [favEntry "LIKES_PLAYLIST" "FAVID"]

/- ------------------------------------------------------------------
clear_playlist, remove_video_id_from_history, clear_favorites,
pause_resume_search_history.
------------------------------------------------------------------- -/

/-- The mapping of clear_playlist (lines 319-321):
x["playlistVideoRenderer"]["setVideoId"] over the enumerated entries.
Python interleaves generator consumption with this mapping; yielding the
whole enumeration first is observationally equal whenever the mapping
succeeds or the enumeration is empty, the cases the claims concern. -/
def setVideoIdsOf : List JVal → Except PyErr (List JVal)
  | [] => .ok []
  | x :: rest => do
    let r ← jget x "playlistVideoRenderer"
    let svid ← jget r "setVideoId"
    let others ← setVideoIdsOf rest
    pure (svid :: others)

/-- The deletion loop of clear_playlist (lines 327-334): one
remove_set_video_id_from_playlist call per set-video-id, with csn, token
and headers passed through (so no page fetch inside the inner call when
they are truthy); responses are consumed from the transcript. -/
def deleteAll (playlistId : String) (csn xsrf ytcfg : JVal) :
    List JVal → List JVal → OpResult Unit
  | [], _ => (.ok (), [])
  | svid :: rest, resps =>
    match resps with
    | [] => (.error (.unexpectedError "fixture transcript exhausted"), [])
    | resp :: rs =>
      match remove_set_video_id_from_playlist true playlistId svid (some csn)
          (some xsrf) true ytcfg resp with
      | (.error e, tr) => (.error e, tr)
      | (.ok _, tr) =>
        let p := deleteAll playlistId csn xsrf ytcfg rest rs
        (p.1, tr ++ p.2)

/-- YouTube.clear_playlist (lines 300-334), embedded.  The playlist-info
generator is created lazily, the playlist page is fetched, the two tokens
are read, then the generator is consumed inside "try ... except KeyError"
(a KeyError — from the generator or from the setVideoId mapping — is
interpreted as an empty playlist and returns silently), and each entry is
deleted. -/
def clear_playlist (loggedIn : Bool) (playlistId : String) (plInitData : JVal)
    (plResponses : List JVal) (ytcfg : JVal) (delResponses : List JVal) :
    OpResult Unit :=
  if !loggedIn then (.error (.authenticationError authRequiredMsg), [])
  else
    match (do
      let csn ← jget ytcfg "EVENT_ID"
      let xsrf ← jget ytcfg "XSRF_TOKEN"
      pure (csn, xsrf) : Except PyErr (JVal × JVal)) with
    | .error e => (.error e, [Req.pageFetch (playlistUrl playlistId)])
    | .ok (csn, xsrf) =>
      match (get_playlist_info loggedIn playlistId plInitData plResponses).1 with
      | .error (.keyError _) =>
        (.ok (), [Req.pageFetch (playlistUrl playlistId)] ++
          (get_playlist_info loggedIn playlistId plInitData plResponses).2)
      | .error e =>
        (.error e, [Req.pageFetch (playlistUrl playlistId)] ++
          (get_playlist_info loggedIn playlistId plInitData plResponses).2)
      | .ok items =>
        match setVideoIdsOf items with
        | .error (.keyError _) =>
          (.ok (), [Req.pageFetch (playlistUrl playlistId)] ++
            (get_playlist_info loggedIn playlistId plInitData plResponses).2)
        | .error e =>
          (.error e, [Req.pageFetch (playlistUrl playlistId)] ++
            (get_playlist_info loggedIn playlistId plInitData plResponses).2)
        | .ok svids =>
          ((deleteAll playlistId csn xsrf ytcfg svids delResponses).1,
           [Req.pageFetch (playlistUrl playlistId)] ++
             (get_playlist_info loggedIn playlistId plInitData plResponses).2 ++
             (deleteAll playlistId csn xsrf ytcfg svids delResponses).2)

/-- The filter predicate of remove_video_id_from_history (lines 443-444):
'videoRenderer' in x and x["videoRenderer"]["videoId"] == video_id. -/
def historyMatchPred (videoId : String) (x : JVal) : Except PyErr Bool :=
  if hasKey x "videoRenderer" then do
    let r ← jget x "videoRenderer"
    let v ← jget r "videoId"
    pure (isStr v videoId)
  else pure false

/-- Python's filter() over a list with a fallible predicate. -/
def pyFilter (p : JVal → Except PyErr Bool) : List JVal →
    Except PyErr (List JVal)
  | [] => .ok []
  | x :: rest => do
    let b ← p x
    let others ← pyFilter p rest
    pure (if b then x :: others else others)

/-- The service-endpoint descriptor of a history entry (lines 450-452):
entry["videoRenderer"]["menu"]["menuRenderer"]["topLevelButtons"][0]
["buttonRenderer"]["serviceEndpoint"]. -/
def histEntrySej (entry : JVal) : Except PyErr JVal := do
  let a ← jget entry "videoRenderer"
  let a ← jget a "menu"
  let a ← jget a "menuRenderer"
  let a ← jget a "topLevelButtons"
  let a ← jidx a 0
  let a ← jget a "buttonRenderer"
  jget a "serviceEndpoint"

/-- YouTube.remove_video_id_from_history (lines 429-467), embedded.  The
history generator is created lazily, the history page is fetched, the
generator is consumed by the filter (only an IndexError from taking element
[0] of the filtered list is caught, returning False), then the matching
entry's deletion request is issued and the status code equality is
RETURNED as a boolean, not raised on. -/
def remove_video_id_from_history (loggedIn : Bool) (videoId : String)
    (histInitData histYtcfg : JVal) (histResponses : List JVal)
    (ytcfg delResponse : JVal) : OpResult Bool :=
  if !loggedIn then (.error (.authenticationError authRequiredMsg), [])
  else
    match (get_history_info loggedIn histInitData histYtcfg histResponses).1 with
    | .error e =>
      (.error e, [Req.pageFetch HISTORY_URL] ++
        (get_history_info loggedIn histInitData histYtcfg histResponses).2)
    | .ok items =>
      match pyFilter (historyMatchPred videoId) items with
      | .error e =>
        (.error e, [Req.pageFetch HISTORY_URL] ++
          (get_history_info loggedIn histInitData histYtcfg histResponses).2)
      | .ok [] =>
        (.ok false, [Req.pageFetch HISTORY_URL] ++
          (get_history_info loggedIn histInitData histYtcfg histResponses).2)
      | .ok (entry :: _) =>
        match (do
          let sej ← histEntrySej entry
          let _ ← jget ytcfg "EVENT_ID"
          let _ ← jget ytcfg "XSRF_TOKEN"
          pure sej : Except PyErr JVal) with
        | .error e =>
          (.error e, [Req.pageFetch HISTORY_URL] ++
            (get_history_info loggedIn histInitData histYtcfg histResponses).2)
        | .ok sej =>
          match jget delResponse "code" with
          | .error e =>
            (.error e, [Req.pageFetch HISTORY_URL] ++
              (get_history_info loggedIn histInitData histYtcfg histResponses).2
              ++ [Req.serviceAjax "feedbackEndpoint" sej])
          | .ok c =>
            (.ok (isStr c "SUCCESS"), [Req.pageFetch HISTORY_URL] ++
              (get_history_info loggedIn histInitData histYtcfg histResponses).2
              ++ [Req.serviceAjax "feedbackEndpoint" sej])

/-- Python str() as used when a non-ASCII-relevant value is interpolated
into a URL; only its action on strings matters to the claims. -/
def jvalToString : JVal → String
  | .str s => s
  | .num n => toString n
  | .bool true => "True"
  | .bool false => "False"
  | .null => "None"
  | .arr _ => "<list>"
  | .obj _ => "<dict>"

/-- YouTube.clear_favorites (lines 234-240), embedded: authentication
check, favorites-id resolution, then clear_playlist on the resolved id. -/
def clear_favorites (sess : Session) (guideData plInitData : JVal)
    (plResponses : List JVal) (ytcfg : JVal) (delResponses : List JVal) :
    Except PyErr Unit × Session × List Req :=
  if !sess.loggedIn then
    (.error (.authenticationError authRequiredMsg), sess, [])
  else
    match get_favorites_playlist_id sess guideData with
    | (.error e, s2, tr) => (.error e, s2, tr)
    | (.ok pid, s2, tr) =>
      ((clear_playlist s2.loggedIn (jvalToString pid) plInitData
          plResponses ytcfg delResponses).1, s2,
       tr ++ (clear_playlist s2.loggedIn (jvalToString pid) plInitData
          plResponses ytcfg delResponses).2)

/-- The dotted path pause_resume_search_history feeds to util.path
(lines 489-493). -/
def searchHistoryInfoPath : String :=
  "contents.twoColumnBrowseResultsRenderer.secondaryContents.browseFeedActionsRenderer.contents.2.buttonRenderer.navigationEndpoint.confirmDialogEndpoint.content.confirmDialogRenderer.confirmEndpoint"

/-- util.context_client_body (util.py lines 137-153), embedded: builds the
innertube client context, reading four ytcfg keys (any of which may raise
KeyError). -/
def context_client_body (ytcfg : JVal) : Except PyErr JVal := do
  let cv ← jget ytcfg "INNERTUBE_CONTEXT_CLIENT_VERSION"
  let gl ← jget ytcfg "INNERTUBE_CONTEXT_GL"
  let hl ← jget ytcfg "INNERTUBE_CONTEXT_HL"
  let vd ← jget ytcfg "VISITOR_DATA"
  pure (.obj [("browserName", .str "Chrome"),
    ("browserVersion", .str "84.0.4147.45"),
    ("clientName", .str "WEB"), ("clientVersion", cv), ("gl", gl), ("hl", hl),
    ("osName", .str "X11"), ("screenHeightPoints", .num 771),
    ("screenPixelDensity", .num 2), ("screenWidthPoints", .num 1272),
    ("userAgent", .str "user-agent"),
    ("userInterfaceTheme", .str "USER_INTERFACE_THEME_DARK"),
    ("utcOffsetMinutes", .num (-240)), ("visitorData", vd)])

/-- YouTube.pause_resume_search_history (lines 481-528), embedded.  The
SAPISIDHASH authorization header is computed by an external collaborator
(hashlib over a cookie value and the clock) and is passed in as an opaque
string; the navigation, token reads and request-body construction follow
the source's evaluation order, and the result is the response's
feedbackResponses[0].isProcessed value. -/
def pause_resume_search_history (loggedIn : Bool) (initData ytcfg : JVal)
    (_authHeader : String) (response : JVal) : OpResult JVal :=
  if !loggedIn then (.error (.authenticationError authRequiredMsg), [])
  else
    match (do
      let info ← path searchHistoryInfoPath initData
      let md ← jget info "commandMetadata"
      let md ← jget md "webCommandMetadata"
      let apiUrl ← jget md "apiUrl"
      let _ ← jget ytcfg "INNERTUBE_API_KEY"
      let _ ← jget info "clickTrackingParams"
      let _ ← context_client_body ytcfg
      let _ ← jget ytcfg "DELEGATED_SESSION_ID"
      let fe ← jget info "feedbackEndpoint"
      let _ ← jget fe "feedbackToken"
      pure apiUrl : Except PyErr JVal) with
    | .error e => (.error e, [Req.pageFetch SEARCH_HISTORY_URL])
    | .ok apiUrl =>
      match (do
        let fr ← jget response "feedbackResponses"
        let fr ← jidx fr 0
        jget fr "isProcessed" : Except PyErr JVal) with
      | .error e =>
        (.error e, [Req.pageFetch SEARCH_HISTORY_URL,
          Req.innertubePost ("https://www.youtube.com" ++ jvalToString apiUrl)])
      | .ok isProcessed =>
        (.ok isProcessed, [Req.pageFetch SEARCH_HISTORY_URL,
          Req.innertubePost ("https://www.youtube.com" ++ jvalToString apiUrl)])

/- ------------------------------------------------------------------
Generator-call model: a Python generator function call builds a suspended
iterator without executing any of the body; the body (and so the
authentication check and all fetching) runs only when the iterator is
advanced.
------------------------------------------------------------------- -/

/-- The suspended result of calling the generator function
get_playlist_info: the captured arguments, nothing executed. -/
structure PlaylistGenCall where
  loggedIn : Bool
  playlistId : String
  initData : JVal
  responses : List JVal

/-- Calling YouTube.get_playlist_info: builds the suspended iterator.  This
construction is total and performs no request and raises nothing. -/
def get_playlist_info_call (loggedIn : Bool) (playlistId : String)
    (initData : JVal) (responses : List JVal) : PlaylistGenCall :=
  ⟨loggedIn, playlistId, initData, responses⟩

/-- Exhausting a suspended playlist iterator: runs the generator body. -/
def playlistGenRun (g : PlaylistGenCall) : OpResult (List JVal) :=
  get_playlist_info g.loggedIn g.playlistId g.initData g.responses

/-- The suspended result of calling the generator function
get_history_info. -/
structure HistoryGenCall where
  loggedIn : Bool
  initData : JVal
  ytcfg : JVal
  responses : List JVal

/-- Calling YouTube.get_history_info: builds the suspended iterator. -/
def get_history_info_call (loggedIn : Bool) (initData ytcfg : JVal)
    (responses : List JVal) : HistoryGenCall :=
  ⟨loggedIn, initData, ytcfg, responses⟩

/-- Exhausting a suspended history iterator: runs the generator body. -/
def historyGenRun (g : HistoryGenCall) : OpResult (List JVal) :=
  get_history_info g.loggedIn g.initData g.ytcfg g.responses

/-- C4: whenever the strict accessor path succeeds, path_default returns the
same value; whenever path fails with a lookup error (KeyError or
IndexError), path_default returns the caller-supplied default; and a missing
mapping key or an out-of-range sequence index at a segment does raise a
lookup error in the strict accessor. -/
theorem path_default_agrees_with_path (s : String) (obj d : JVal) :
    (∀ v, path s obj = .ok v → path_default s obj d = .ok v) ∧
    (∀ k, path s obj = .error (.keyError k) → path_default s obj d = .ok d) ∧
    (path s obj = .error .indexError → path_default s obj d = .ok d) ∧
    (∀ kvs k, (kvs.lookup k).isNone →
      pathSeg (.obj kvs) k = .error (.keyError k)) ∧
    (∀ xs p i, pyInt? p = some i → (xs.length : Int) ≤ i →
      pathSeg (.arr xs) p = .error .indexError) ∧
    (∀ xs p i, pyInt? p = some i → i + (xs.length : Int) < 0 →
      pathSeg (.arr xs) p = .error .indexError) := by
  refine ⟨?_, ?_, ?_, ?_, ?_, ?_⟩
  · intro v hv
    simp [path_default, hv]
  · intro k hk
    simp [path_default, hk]
  · intro h
    simp [path_default, h]
  · intro kvs k hk
    simp only [pathSeg, jget]
    cases h : kvs.lookup k with
    | none => simp
    | some w => rw [h] at hk; simp at hk
  · intro xs p i hp hlen
    have hi : 0 ≤ i := le_trans (Int.ofNat_nonneg xs.length) hlen
    simp only [pathSeg, hp, listIndex]
    have hneg : ¬ i < 0 := by omega
    simp only [hneg, if_false, hi, if_true]
    have : xs[i.toNat]? = none := List.getElem?_eq_none (by omega)
    simp [this]
  · intro xs p i hp hsum
    have hi : i < 0 := by omega
    simp only [pathSeg, hp, listIndex]
    simp only [hi, if_true]
    have : ¬ (0 : Int) ≤ i + xs.length := by omega
    simp [this]

/-- C4 witness: on a concrete fixture, path_default agrees with path on a
successful lookup and returns the default on a missing key. -/
theorem path_default_agrees_with_path_witness :
    path_default "a.1" (.obj [("a", .arr [.num 3, .num 7])]) (.num 0)
        = .ok (.num 7) ∧
    path_default "a.9" (.obj [("a", .arr [.num 3, .num 7])]) (.num 0)
        = .ok (.num 0) ∧
    path_default "z" (.obj [("a", .arr [.num 3, .num 7])]) (.num 0)
        = .ok (.num 0) :=
  ⟨(path_default_agrees_with_path "a.1" (.obj [("a", .arr [.num 3, .num 7])])
      (.num 0)).1 (.num 7) rfl,
   (path_default_agrees_with_path "a.9" (.obj [("a", .arr [.num 3, .num 7])])
      (.num 0)).2.2.1 rfl,
   (path_default_agrees_with_path "z" (.obj [("a", .arr [.num 3, .num 7])])
      (.num 0)).2.1 "z" rfl⟩

/-- The playlist continuation loop on a chained fixture transcript yields
the concatenation of all remaining batches and issues exactly one
browse-ajax request per transcript page. -/
theorem playlistContLoop_plRespList
    (tl : List (List JVal × String × String)) (last : List JVal) :
    ∀ (acc : List JVal) (c i : String),
    playlistContLoop (plRespList tl last) acc (.str c) (.str i)
      = (.ok (acc ++ (chainItems tl ++ last)),
         Req.browseAjax (.str c) (.str i) :: plChainTrace tl) := by
  induction tl with
  | nil => intro acc c i; rfl
  | cons hd tl ih =>
    intro acc c i
    obtain ⟨b, c2, i2⟩ := hd
    rw [show playlistContLoop (plRespList ((b, c2, i2) :: tl) last) acc
          (.str c) (.str i)
        = consTrace (Req.browseAjax (.str c) (.str i))
            (playlistContLoop (plRespList tl last) (acc ++ b) (.str c2)
              (.str i2)) from rfl]
    rw [ih]
    simp [consTrace, chainItems, plChainTrace]

/-- The history continuation loop on a chained fixture transcript yields the
concatenation of all remaining batches and issues exactly one browse-ajax
POST per transcript page. -/
theorem historyContLoop_histRespList
    (tl : List (List JVal × String × String)) (last : List JVal) (xs : String) :
    ∀ (acc : List JVal) (c i : String),
    historyContLoop (histRespList tl last xs) acc (.str c) (.str i) (.str xs)
      = (.ok (acc ++ (chainItems tl ++ last)),
         Req.browseAjaxPost (.str c) (.str i) (.str xs) ::
           histChainTrace xs tl) := by
  induction tl with
  | nil => intro acc c i; rfl
  | cons hd tl ih =>
    intro acc c i
    obtain ⟨b, c2, i2⟩ := hd
    rw [show historyContLoop (histRespList ((b, c2, i2) :: tl) last xs) acc
          (.str c) (.str i) (.str xs)
        = consTrace (Req.browseAjaxPost (.str c) (.str i) (.str xs))
            (historyContLoop (histRespList tl last xs) (acc ++ b) (.str c2)
              (.str i2) (.str xs)) from rfl]
    rw [ih]
    simp [consTrace, chainItems, histChainTrace]

/-- C1: on a paginated fixture of N pages in which each page but the last
carries a (truthy) continuation cursor, get_playlist_info and
get_history_info each yield exactly the concatenation of all N pages' items
in order and issue exactly N-1 continuation requests after the single page
fetch; on a first page carrying no cursor they yield exactly that page's
items and issue no continuation request at all. -/
theorem pagination_yields_concatenation (pid xs : String) :
    (∀ (b last : List JVal) (c i : String)
       (rest : List (List JVal × String × String)), c ≠ "" → i ≠ "" →
      get_playlist_info true pid (mkPlInitData (mkPlRenderer b (some (c, i))))
          (plRespList rest last)
        = (.ok (b ++ (chainItems rest ++ last)),
           Req.pageFetch (playlistUrl pid) ::
             Req.browseAjax (.str c) (.str i) :: plChainTrace rest)) ∧
    (∀ last : List JVal,
      get_playlist_info true pid (mkPlInitData (mkPlRenderer last none)) []
        = (.ok last, [Req.pageFetch (playlistUrl pid)])) ∧
    (∀ (b last : List JVal) (c i : String)
       (rest : List (List JVal × String × String)),
      get_history_info true (mkBrowseInitData (mkHistSLR b (some (c, i))))
          (wrapKey "XSRF_TOKEN" (.str xs)) (histRespList rest last xs)
        = (.ok (b ++ (chainItems rest ++ last)),
           Req.pageFetch HISTORY_URL ::
             Req.browseAjaxPost (.str c) (.str i) (.str xs) ::
               histChainTrace xs rest)) ∧
    (∀ last : List JVal,
      get_history_info true (mkBrowseInitData (mkHistSLR last none))
          (wrapKey "XSRF_TOKEN" (.str xs)) []
        = (.ok last, [Req.pageFetch HISTORY_URL])) := by
  refine ⟨?_, ?_, ?_, ?_⟩
  · intro b last c i rest hc hi
    have hg : (truthy (.str c) && truthy (.str i)) = true := by
      simp [truthy, hc, hi]
    rw [show get_playlist_info true pid
          (mkPlInitData (mkPlRenderer b (some (c, i)))) (plRespList rest last)
        = (if truthy (.str c) && truthy (.str i) then
            ((playlistContLoop (plRespList rest last) b (.str c) (.str i)).1,
             Req.pageFetch (playlistUrl pid) ::
               (playlistContLoop (plRespList rest last) b (.str c) (.str i)).2)
           else (.ok b, [Req.pageFetch (playlistUrl pid)])) from rfl,
       if_pos hg, playlistContLoop_plRespList]
  · intro last; rfl
  · intro b last c i rest
    rw [show get_history_info true
          (mkBrowseInitData (mkHistSLR b (some (c, i))))
          (wrapKey "XSRF_TOKEN" (.str xs)) (histRespList rest last xs)
        = ((historyContLoop (histRespList rest last xs) b (.str c) (.str i)
              (.str xs)).1,
           Req.pageFetch HISTORY_URL ::
             (historyContLoop (histRespList rest last xs) b (.str c) (.str i)
               (.str xs)).2) from rfl,
       historyContLoop_histRespList]
  · intro last; rfl

/-- C1 witness: a concrete three-page playlist fixture and a concrete
two-page history fixture evaluate to the concatenations, and concrete
single-page fixtures terminate immediately. -/
theorem pagination_yields_concatenation_witness :
    get_playlist_info true "PL1"
        (mkPlInitData (mkPlRenderer [.str "v1"] (some ("c1", "i1"))))
        (plRespList [([.str "v2"], "c2", "i2")] [.str "v3"])
      = (.ok [.str "v1", .str "v2", .str "v3"],
         [Req.pageFetch (playlistUrl "PL1"),
          Req.browseAjax (.str "c1") (.str "i1"),
          Req.browseAjax (.str "c2") (.str "i2")]) ∧
    get_history_info true
        (mkBrowseInitData (mkHistSLR [.str "h1"] (some ("c1", "i1"))))
        (wrapKey "XSRF_TOKEN" (.str "tok")) (histRespList [] [.str "h2"] "tok")
      = (.ok [.str "h1", .str "h2"],
         [Req.pageFetch HISTORY_URL,
          Req.browseAjaxPost (.str "c1") (.str "i1") (.str "tok")]) ∧
    get_playlist_info true "PL1" (mkPlInitData (mkPlRenderer [.str "v1"] none))
        [] = (.ok [.str "v1"], [Req.pageFetch (playlistUrl "PL1")]) := by
  refine ⟨?_, ?_, ?_⟩
  · have h := (pagination_yields_concatenation "PL1" "tok").1 [.str "v1"]
      [.str "v3"] "c1" "i1" [([.str "v2"], "c2", "i2")]
      (by decide) (by decide)
    simpa [chainItems, plChainTrace] using h
  · have h := (pagination_yields_concatenation "PL1" "tok").2.2.1 [.str "h1"]
      [.str "h2"] "c1" "i1" []
    simpa [chainItems, histChainTrace] using h
  · exact (pagination_yields_concatenation "PL1" "tok").2.1 [.str "v1"]

/-- C2 counterexample: get_history_info on a first page whose
sectionListRenderer lacks the "contents" batch-container key raises a
KeyError rather than yielding an empty first batch — the first-batch loop
of get_history_info (unlike get_playlist_info's) is not wrapped in a
try/except KeyError. -/
theorem history_missing_container_key_raises :
    get_history_info true (mkBrowseInitData (.obj []))
        (wrapKey "XSRF_TOKEN" (.str "tok")) []
      = (.error (.keyError "contents"), [Req.pageFetch HISTORY_URL]) := rfl

/-- C2 amended: when the batch-container key is absent from the first
page's initial state, get_playlist_info emits an empty first batch and
terminates without error; get_history_info, by contrast, raises a KeyError
on an absent container key, and yields an empty first batch without error
only when the key is present and maps to an empty section list. -/
theorem empty_collection_first_batch (pid : String) :
    get_playlist_info true pid (mkPlInitData (.obj [])) []
        = (.ok [], [Req.pageFetch (playlistUrl pid)]) ∧
    get_history_info true (mkBrowseInitData (.obj []))
        (wrapKey "XSRF_TOKEN" (.str "tok")) []
      = (.error (.keyError "contents"), [Req.pageFetch HISTORY_URL]) ∧
    get_history_info true
        (mkBrowseInitData (wrapKey "contents" (.arr [])))
        (wrapKey "XSRF_TOKEN" (.str "tok")) []
      = (.ok [], [Req.pageFetch HISTORY_URL]) :=
  ⟨rfl, rfl, rfl⟩

/-- C2 witness: the amended claim instantiated at a concrete playlist id. -/
theorem empty_collection_first_batch_witness :
    get_playlist_info true "PL9" (mkPlInitData (.obj [])) []
        = (.ok [], [Req.pageFetch (playlistUrl "PL9")]) :=
  (empty_collection_first_batch "PL9").1

/-- C3 counterexample: clear_watch_history, with the confirm button present
and a service response whose status code is "FAILURE", returns normally —
it never inspects the status code, contradicting the claim that every
public mutation operation raises UnexpectedError on a non-"SUCCESS" code. -/
theorem clear_watch_history_ignores_status_code :
    clear_watch_history true clearHistoryButtonFixture ytcfgFixture
        (wrapKey "code" (.str "FAILURE"))
      = (.ok (), [Req.pageFetch HISTORY_URL,
                  Req.serviceAjax "feedbackEndpoint" (.str "SEJ")]) := rfl

/-- C3 amended: remove_set_video_id_from_playlist does interpret the status
code — it returns normally exactly on "SUCCESS" and raises UnexpectedError
on any other string — but clear_watch_history issues its mutation request
without inspecting the response status at all, returning normally
regardless of the code. -/
theorem mutation_status_code_interpretation :
    (∀ (pid : String) (svid ytcfg : JVal),
      remove_set_video_id_from_playlist true pid svid (some (.str "c"))
          (some (.str "x")) true ytcfg (wrapKey "code" (.str "SUCCESS"))
        = (.ok (), [Req.serviceAjax "playlistEditEndpoint"
            (playlistEditSej pid svid)])) ∧
    (∀ (pid : String) (svid ytcfg : JVal) (s : String), s ≠ "SUCCESS" →
      remove_set_video_id_from_playlist true pid svid (some (.str "c"))
          (some (.str "x")) true ytcfg (wrapKey "code" (.str s))
        = (.error (.unexpectedError
            "Failed to delete video from Watch Later playlist"),
           [Req.serviceAjax "playlistEditEndpoint"
             (playlistEditSej pid svid)])) ∧
    (∀ resp : JVal,
      clear_watch_history true clearHistoryButtonFixture ytcfgFixture resp
        = (.ok (), [Req.pageFetch HISTORY_URL,
                    Req.serviceAjax "feedbackEndpoint" (.str "SEJ")])) := by
  refine ⟨fun pid svid ytcfg => rfl, ?_, fun resp => rfl⟩
  intro pid svid ytcfg s hs
  rw [show remove_set_video_id_from_playlist true pid svid (some (.str "c"))
        (some (.str "x")) true ytcfg (wrapKey "code" (.str s))
      = (if (s == "SUCCESS") = true then
          ((.ok (), [Req.serviceAjax "playlistEditEndpoint"
            (playlistEditSej pid svid)]) : OpResult Unit)
         else
          (.error (.unexpectedError
            "Failed to delete video from Watch Later playlist"),
           [Req.serviceAjax "playlistEditEndpoint"
             (playlistEditSej pid svid)])) from rfl,
      if_neg (by simp [hs])]

/-- C3 witness: the amended claim at concrete inputs — status "SUCCESS"
returns normally, status "FAILURE" raises UnexpectedError. -/
theorem mutation_status_code_interpretation_witness :
    remove_set_video_id_from_playlist true "WL" (.str "svid")
        (some (.str "c")) (some (.str "x")) true ytcfgFixture
        (wrapKey "code" (.str "SUCCESS"))
      = (.ok (), [Req.serviceAjax "playlistEditEndpoint"
          (playlistEditSej "WL" (.str "svid"))]) ∧
    remove_set_video_id_from_playlist true "WL" (.str "svid")
        (some (.str "c")) (some (.str "x")) true ytcfgFixture
        (wrapKey "code" (.str "FAILURE"))
      = (.error (.unexpectedError
          "Failed to delete video from Watch Later playlist"),
         [Req.serviceAjax "playlistEditEndpoint"
           (playlistEditSej "WL" (.str "svid"))]) :=
  ⟨mutation_status_code_interpretation.1 "WL" (.str "svid") ytcfgFixture,
   mutation_status_code_interpretation.2.1 "WL" (.str "svid") ytcfgFixture
     "FAILURE" (by decide)⟩

/-- C7: when the clear-history confirmation-button descriptor is absent
from the page's initial state (the navigation to it fails with a KeyError),
clear_watch_history returns silently having issued only the page fetch — no
mutation request. -/
theorem clear_watch_history_absent_button_silent
    (initData ytcfg resp : JVal) (k : String)
    (h : clearHistorySej initData = .error (.keyError k)) :
    clear_watch_history true initData ytcfg resp
        = (.ok (), [Req.pageFetch HISTORY_URL]) ∧
    ∀ q ∈ [Req.pageFetch HISTORY_URL], isServiceAjax q = false := by
  have h2 : clearHistoryFormData initData ytcfg = .error (.keyError k) := by
    unfold clearHistoryFormData
    rw [show (do
      let sej ← clearHistorySej initData
      let _ ← jget ytcfg "EVENT_ID"
      let _ ← jget ytcfg "XSRF_TOKEN"
      pure sej : Except PyErr JVal)
        = clearHistorySej initData >>= (fun sej =>
            jget ytcfg "EVENT_ID" >>= (fun _ =>
              jget ytcfg "XSRF_TOKEN" >>= (fun _ => pure sej))) from rfl, h]
    rfl
  constructor
  · unfold clear_watch_history
    rw [h2]
    rfl
  · intro q hq
    simp only [List.mem_singleton] at hq
    subst hq
    rfl

/-- C7 witness: with an empty initial state the descriptor navigation fails
on the first key and clear_watch_history returns silently. -/
theorem clear_watch_history_absent_button_silent_witness :
    clear_watch_history true (.obj []) ytcfgFixture .null
        = (.ok (), [Req.pageFetch HISTORY_URL]) :=
  (clear_watch_history_absent_button_silent (.obj []) ytcfgFixture .null
    "contents" rfl).1

/-- Every successful get_favorites_playlist_id leaves the session logged in
with the returned id cached as a truthy value. -/
theorem get_favorites_ok_state (sess : Session) (gd v : JVal) (sess2 : Session)
    (tr : List Req)
    (h : get_favorites_playlist_id sess gd = (.ok v, sess2, tr)) :
    sess2.loggedIn = true ∧ sess2.favoritesPlaylistId = some v ∧
      truthy v = true := by
  unfold get_favorites_playlist_id at h
  split at h
  · simp at h
  next hl =>
    have hl' : sess.loggedIn = true := by
      simpa using hl
    split at h
    next hc =>
      simp only [Prod.mk.injEq, Except.ok.injEq] at h
      obtain ⟨hv, hs, -⟩ := h
      subst hs
      refine ⟨hl', ?_, ?_⟩
      · cases hf : sess.favoritesPlaylistId with
        | none => rw [hf] at hc; simp [truthy] at hc
        | some w =>
          rw [hf] at hv
          simp only [Option.getD_some] at hv
          simp [hf, hv]
      · rw [← hv]; exact hc
    next hc =>
      split at h
      · simp at h
      next si siList hsi =>
        split at h
        · simp at h
        next found hfound =>
          split at h
          next ht =>
            simp only [Prod.mk.injEq, Except.ok.injEq] at h
            obtain ⟨hv, hs, -⟩ := h
            subst hs
            refine ⟨hl', ?_, ?_⟩
            · cases hf : found with
              | none => rw [hf] at ht; simp [truthy] at ht
              | some w =>
                rw [hf] at hv
                simp only [Option.getD_some] at hv
                simp [hf, hv]
            · rw [← hv]; exact ht
          next ht =>
            split at h
            · simp at h
            next eiList hei =>
              split at h
              · simp at h
              next found2 hfound2 =>
                split at h
                · simp at h
                next ht2 =>
                  have ht2' : truthy (found2.getD .null) = true := by
                    simpa using ht2
                  simp only [Prod.mk.injEq, Except.ok.injEq] at h
                  obtain ⟨hv, hs, -⟩ := h
                  subst hs
                  refine ⟨hl', ?_, ?_⟩
                  · cases hf : found2 with
                    | none => rw [hf] at ht2'; simp [truthy] at ht2'
                    | some w =>
                rw [hf] at hv
                simp only [Option.getD_some] at hv
                simp [hf, hv]
                  · rw [← hv]; exact ht2'

/-- C8: get_favorites_playlist_id is idempotent — after any successful
resolution, a second call (on any guide data) returns the identical id with
no further page fetch — and on a guide fixture without the LIKES_PLAYLIST
icon marker it fails with the not-found ValueError after one page fetch. -/
theorem favorites_id_idempotent_and_not_found :
    (∀ (sess : Session) (gd v : JVal) (sess2 : Session) (tr : List Req),
      get_favorites_playlist_id sess gd = (.ok v, sess2, tr) →
      ∀ gd2 : JVal, get_favorites_playlist_id sess2 gd2 = (.ok v, sess2, [])) ∧
    get_favorites_playlist_id ⟨true, none⟩ noFavGuideFixture
      = (.error (.valueError "Could not determine favourites playlist ID"),
         ⟨true, none⟩, [Req.pageFetch HOMEPAGE_URL]) := by
  constructor
  · intro sess gd v sess2 tr h gd2
    obtain ⟨hl, hf, ht⟩ := get_favorites_ok_state sess gd v sess2 tr h
    unfold get_favorites_playlist_id
    rw [hl, hf]
    simp [ht]
  · rfl

/-- C8 witness: a concrete first call resolves FAVID from the guide, and
the second call returns the cached id with an empty request trace. -/
theorem favorites_id_idempotent_and_not_found_witness :
    get_favorites_playlist_id ⟨true, some (.str "FAVID")⟩ .null
      = (.ok (.str "FAVID"), ⟨true, some (.str "FAVID")⟩, []) :=
  favorites_id_idempotent_and_not_found.1 ⟨true, none⟩ favGuideFixture
    (.str "FAVID") ⟨true, some (.str "FAVID")⟩ [Req.pageFetch HOMEPAGE_URL]
    rfl .null

/-- C5 (code bug): on the concrete input path("a", [1, 2]) — a list node
with a non-integer segment — the code raises ValueError (propagating from
int("a")), not the TypeError("Property for a list must be an integer") that
its own dead raise statement and the spec intend: the source catches
TypeError, but int() on a str raises ValueError, which is never caught. -/
theorem path_nonint_segment_raises_valueerror :
    path "a" (.arr [.num 1, .num 2])
      = .error (.valueError "invalid literal for int() with base 10: 'a'") :=
  rfl

/-- No playlist continuation loop trace contains a service-ajax (mutation)
request. -/
theorem playlistContLoop_no_serviceAjax (resps : List JVal) :
    ∀ acc c i q, q ∈ (playlistContLoop resps acc c i).2 →
      isServiceAjax q = false := by
  induction resps with
  | nil =>
    intro acc c i q hq
    simp only [playlistContLoop, List.mem_singleton] at hq
    subst hq; rfl
  | cons resp rest ih =>
    intro acc c i q hq
    unfold playlistContLoop at hq
    split at hq
    · simp at hq; subst hq; rfl
    · split at hq
      · simp at hq; subst hq; rfl
      · simp at hq; subst hq; rfl
      · split at hq
        · simp at hq; subst hq; rfl
        · simp only [consTrace, List.mem_cons] at hq
          rcases hq with h | h
          · subst h; rfl
          · exact ih _ _ _ q h

/-- No get_playlist_info trace contains a service-ajax (mutation) request:
enumerating a playlist only fetches and browses. -/
theorem get_playlist_info_no_serviceAjax (l : Bool) (pid : String) (d : JVal)
    (rs : List JVal) :
    ∀ q ∈ (get_playlist_info l pid d rs).2, isServiceAjax q = false := by
  intro q hq
  unfold get_playlist_info at hq
  split at hq
  · simp at hq
  · split at hq
    · simp at hq; subst hq; rfl
    · split at hq
      · simp at hq; subst hq; rfl
      · split at hq
        · simp at hq; subst hq; rfl
        · simp at hq; subst hq; rfl
        · split at hq
          · simp only [List.cons_append, List.nil_append,
              List.mem_cons] at hq
            rcases hq with h | h
            · subst h; rfl
            · exact playlistContLoop_no_serviceAjax _ _ _ _ q h
          · simp at hq; subst hq; rfl

/-- A filter whose predicate returns false on every element returns the
empty list. -/
theorem pyFilter_all_false (p : JVal → Except PyErr Bool) (xs : List JVal)
    (h : ∀ x ∈ xs, p x = .ok false) : pyFilter p xs = .ok [] := by
  induction xs with
  | nil => rfl
  | cons x rest ih =>
    have hx : p x = .ok false := h x (List.mem_cons_self x rest)
    have hr : pyFilter p rest = .ok [] :=
      ih (fun y hy => h y (List.mem_cons_of_mem x hy))
    unfold pyFilter
    rw [show (do
      let b ← p x
      let others ← pyFilter p rest
      pure (if b then x :: others else others) : Except PyErr (List JVal))
        = p x >>= (fun b => pyFilter p rest >>= (fun others =>
            pure (if b then x :: others else others))) from rfl, hx, hr]
    rfl

/-- C6: every public operation that requires login — the nine listed
operations — returns the AuthenticationError with an empty request trace
when the session is not logged in: the error is raised before any request
(mutation or otherwise) is issued, and nothing is retried. -/
theorem operations_require_login :
    (∀ (pid : String) (svid : JVal) (csn xsrf : Option JVal) (hp : Bool)
       (ytcfg resp : JVal),
      remove_set_video_id_from_playlist false pid svid csn xsrf hp ytcfg resp
        = (.error (.authenticationError authRequiredMsg), [])) ∧
    (∀ d y r : JVal, clear_watch_history false d y r
        = (.error (.authenticationError authRequiredMsg), [])) ∧
    (∀ (fav : Option JVal) (gd : JVal),
      get_favorites_playlist_id ⟨false, fav⟩ gd
        = (.error (.authenticationError authRequiredMsg), ⟨false, fav⟩, [])) ∧
    (∀ (fav : Option JVal) (gd d : JVal) (rs : List JVal) (y : JVal)
       (drs : List JVal),
      clear_favorites ⟨false, fav⟩ gd d rs y drs
        = (.error (.authenticationError authRequiredMsg), ⟨false, fav⟩, [])) ∧
    (∀ (pid : String) (d : JVal) (rs : List JVal),
      get_playlist_info false pid d rs
        = (.error (.authenticationError authRequiredMsg), [])) ∧
    (∀ (pid : String) (d : JVal) (rs : List JVal) (y : JVal)
       (drs : List JVal),
      clear_playlist false pid d rs y drs
        = (.error (.authenticationError authRequiredMsg), [])) ∧
    (∀ (d y : JVal) (rs : List JVal),
      get_history_info false d y rs
        = (.error (.authenticationError authRequiredMsg), [])) ∧
    (∀ (vid : String) (d hy : JVal) (rs : List JVal) (y dr : JVal),
      remove_video_id_from_history false vid d hy rs y dr
        = (.error (.authenticationError authRequiredMsg), [])) ∧
    (∀ (d y : JVal) (ah : String) (r : JVal),
      pause_resume_search_history false d y ah r
        = (.error (.authenticationError authRequiredMsg), [])) :=
  ⟨fun _ _ _ _ _ _ _ => rfl, fun _ _ _ => rfl, fun _ _ => rfl,
   fun _ _ _ _ _ _ => rfl, fun _ _ _ => rfl, fun _ _ _ _ _ => rfl,
   fun _ _ _ => rfl, fun _ _ _ _ _ _ => rfl, fun _ _ _ _ => rfl⟩

/-- C6 witness: two of the operations evaluated at concrete inputs while
logged out. -/
theorem operations_require_login_witness :
    remove_set_video_id_from_playlist false "WL" (.str "s") none none false
        .null .null = (.error (.authenticationError authRequiredMsg), []) ∧
    get_history_info false .null .null []
        = (.error (.authenticationError authRequiredMsg), []) :=
  ⟨operations_require_login.1 "WL" (.str "s") none none false .null .null,
   operations_require_login.2.2.2.2.2.2.1 .null .null []⟩

/-- C9: clearing a playlist whose info enumeration yields zero entries
issues zero deletion (service-ajax) requests and returns normally, and
removing a video id that matches no page of history info returns False
rather than raising. -/
theorem absent_target_removals_noop :
    (∀ (pid : String) (initD : JVal) (resps dresps : List JVal)
       (tr : List Req),
      get_playlist_info true pid initD resps = (.ok [], tr) →
      clear_playlist true pid initD resps ytcfgFixture dresps
          = (.ok (), Req.pageFetch (playlistUrl pid) :: tr) ∧
        ∀ q ∈ Req.pageFetch (playlistUrl pid) :: tr,
          isServiceAjax q = false) ∧
    (∀ (vid : String) (initD hy : JVal) (resps : List JVal)
       (ytcfg dresp : JVal) (items : List JVal) (tr : List Req),
      get_history_info true initD hy resps = (.ok items, tr) →
      (∀ x ∈ items, historyMatchPred vid x = .ok false) →
      remove_video_id_from_history true vid initD hy resps ytcfg dresp
        = (.ok false, Req.pageFetch HISTORY_URL :: tr)) := by
  constructor
  · intro pid initD resps dresps tr hgen
    constructor
    · unfold clear_playlist
      rw [hgen,
        show (do
          let csn ← jget ytcfgFixture "EVENT_ID"
          let xsrf ← jget ytcfgFixture "XSRF_TOKEN"
          pure (csn, xsrf) : Except PyErr (JVal × JVal))
            = .ok (.str "csn", .str "tok") from rfl]
      simp [setVideoIdsOf, deleteAll]
    · intro q hq
      rcases List.mem_cons.mp hq with h | h
      · subst h; rfl
      · have h2 : (get_playlist_info true pid initD resps).2 = tr := by
          rw [hgen]
        rw [← h2] at h
        exact get_playlist_info_no_serviceAjax true pid initD resps q h
  · intro vid initD hy resps ytcfg dresp items tr hgen hmatch
    have hf : pyFilter (historyMatchPred vid) items = .ok [] :=
      pyFilter_all_false _ _ hmatch
    unfold remove_video_id_from_history
    rw [hgen]
    simp [hf]

/-- C9 witness: a concrete empty playlist is cleared with no deletion
request, and removing an unseen video id from a concrete one-entry history
returns False. -/
theorem absent_target_removals_noop_witness :
    clear_playlist true "PL1" (mkPlInitData (mkPlRenderer [] none)) []
        ytcfgFixture []
      = (.ok (), [Req.pageFetch (playlistUrl "PL1"),
                  Req.pageFetch (playlistUrl "PL1")]) ∧
    remove_video_id_from_history true "nope"
        (mkBrowseInitData (mkHistSLR [wrapKey "videoRenderer"
          (wrapKey "videoId" (.str "other"))] none))
        (wrapKey "XSRF_TOKEN" (.str "tok")) [] ytcfgFixture .null
      = (.ok false, [Req.pageFetch HISTORY_URL,
                     Req.pageFetch HISTORY_URL]) :=
  ⟨(absent_target_removals_noop.1 "PL1" (mkPlInitData (mkPlRenderer [] none))
      [] [] [Req.pageFetch (playlistUrl "PL1")] rfl).1,
   absent_target_removals_noop.2 "nope"
     (mkBrowseInitData (mkHistSLR [wrapKey "videoRenderer"
       (wrapKey "videoId" (.str "other"))] none))
     (wrapKey "XSRF_TOKEN" (.str "tok")) [] ytcfgFixture .null
     [wrapKey "videoRenderer" (wrapKey "videoId" (.str "other"))]
     [Req.pageFetch HISTORY_URL] rfl
     (by intro x hx
         simp only [List.mem_singleton] at hx
         subst hx
         rfl)⟩

/-- C10: calling the generator functions get_playlist_info and
get_history_info while not logged in does not raise: the call itself merely
packages the arguments into a suspended iterator (a pure construction with
no requests and no exception); the AuthenticationError, with an empty
request trace, surfaces only when the iterator is first advanced. -/
theorem generator_call_defers_auth_check :
    (∀ (pid : String) (d : JVal) (rs : List JVal),
      get_playlist_info_call false pid d rs
        = PlaylistGenCall.mk false pid d rs ∧
      playlistGenRun (get_playlist_info_call false pid d rs)
        = (.error (.authenticationError authRequiredMsg), [])) ∧
    (∀ (d y : JVal) (rs : List JVal),
      get_history_info_call false d y rs = HistoryGenCall.mk false d y rs ∧
      historyGenRun (get_history_info_call false d y rs)
        = (.error (.authenticationError authRequiredMsg), [])) :=
  ⟨fun _ _ _ => ⟨rfl, rfl⟩, fun _ _ _ => ⟨rfl, rfl⟩⟩

/-- C10 witness: the deferred authentication failure observed on a concrete
suspended call. -/
theorem generator_call_defers_auth_check_witness :
    playlistGenRun (get_playlist_info_call false "PL1" .null [])
      = (.error (.authenticationError authRequiredMsg), []) :=
  ((generator_call_defers_auth_check.1 "PL1" .null []).2)
